import Mathlib

/-!
# Verification of the rapier4unity C binding layer

Shallow embedding of `rapier-c-bind/rapierbind/src/lib.rs`: the flat
C-compatible wrapper around the rapier3d physics engine.  Scalar values
crossing the boundary are `f32` in the source; they are modelled as exact
rationals (`ℚ`) except for the rotation conversions, which use `ℝ` because
they involve square roots and inverse trigonometric functions.

The simulation world (`PhysicsSolverData`) is a global `Option` in the
source (`static mut PHYSIC_SOLVER_DATA`); entry points are modelled as
functions from the world state (plus their C arguments) to the updated
state and return value.  Calls into the underlying rapier engine that are
external to this repository (the pipeline step, trimesh / convex-hull
construction, ray-cast queries) are taken as function parameters or
modelled from their documented contracts, as noted at each definition.
-/

namespace Rapierbind

/-- Three-component vector (nalgebra `Vector3`), parameterised over the scalar. -/
structure Vector3 (α : Type) where
  x : α
  y : α
  z : α
deriving DecidableEq, Repr

/-- Quaternion components in (x, y, z, w) order, as marshalled across the
boundary and as stored in nalgebra's `Quaternion.coords`. -/
structure Quat (α : Type) where
  x : α
  y : α
  z : α
  w : α
deriving DecidableEq, Repr

/-- Componentwise addition of 3-vectors. -/
def Vector3.add {α : Type} [Add α] (a b : Vector3 α) : Vector3 α :=
  ⟨a.x + b.x, a.y + b.y, a.z + b.z⟩

/-- Scalar multiplication of a 3-vector. -/
def Vector3.smul {α : Type} [Mul α] (c : α) (v : Vector3 α) : Vector3 α :=
  ⟨c * v.x, c * v.y, c * v.z⟩

/-- The zero 3-vector. -/
def Vector3.zero {α : Type} [Zero α] : Vector3 α := ⟨0, 0, 0⟩

/-- Rigid-body type selector (rapier `RigidBodyType`; the wrapper's
`SerializableRigidBodyType` maps onto it). -/
inductive RigidBodyType where
  | Dynamic
  | Fixed
  | KinematicPositionBased
  | KinematicVelocityBased
deriving DecidableEq, Repr

/-- Whether a body type is kinematic (rapier `RigidBody::is_kinematic`). -/
def RigidBodyType.isKinematic : RigidBodyType → Bool
  | .KinematicPositionBased => true
  | .KinematicVelocityBased => true
  | _ => false

/-- An isometry: translation (exact rationals) plus rotation (a unit
quaternion; real-valued because normalisation involves a square root). -/
structure Isometry where
  translation : Vector3 ℚ
  rotation : Quat ℝ

/-- Rigid body state, restricted to the fields the wrapper reads or writes.
`position` is the body's current pose; `next_position` is the kinematic
target pose written by the `set_transform*` entry points and promoted to
`position` only by an engine step.  `user_force` models rapier's persistent
force accumulator (`RigidBody::add_force` would write it; the wrapper never
does). -/
structure RigidBody where
  body_type : RigidBodyType
  position : Isometry
  next_position : Isometry
  linvel : Vector3 ℚ
  angvel : Vector3 ℚ
  mass : ℚ
  user_force : Vector3 ℚ
  locked_axes : ℕ
  ccd_enabled : Bool
  linear_damping : ℚ
  angular_damping : ℚ

/-- Collider handle: rapier arena index plus generation.  Modelled from the
spec: the handle codec (`handles.rs`) is not under `src/`; the spec
describes handles as opaque `(index, generation)` tokens with a sentinel
"invalid" value. -/
structure ColliderHandle where
  index : ℕ
  generation : ℕ
deriving DecidableEq, Repr

/-- The sentinel invalid collider handle (rapier `ColliderHandle::invalid()`:
both raw parts at `u32::MAX`). -/
def ColliderHandle.invalid : ColliderHandle := ⟨4294967295, 4294967295⟩

/-- Collider shapes constructed by the wrapper entry points. -/
inductive ColliderShape where
  | cuboid (hx hy hz : ℚ)
  | ball (radius : ℚ)
  | capsuleY (halfHeight radius : ℚ)
  | trimesh (vertices : List (Vector3 ℚ)) (indices : List (ℕ × ℕ × ℕ))
  | convexHull (points : List (Vector3 ℚ))
deriving DecidableEq, Repr

/-- Collider state restricted to what the wrapper sets on every creation
path: shape, density, sensor flag, and the always-enabled collision-events
flag. -/
structure Collider where
  shape : ColliderShape
  density : ℚ
  sensor : Bool
  collision_events : Bool
  parent : Option ℕ
deriving DecidableEq, Repr

/-- Collider arena: a fresh-index counter plus an association list from
index to collider. -/
structure ColliderSet where
  nextIndex : ℕ
  items : List (ℕ × Collider)
deriving DecidableEq, Repr

/-- The empty collider arena (`ColliderSet::new()`). -/
def ColliderSet.empty : ColliderSet := ⟨0, []⟩

/-- Insert a collider, returning the updated arena and the issued handle
(fresh index, generation 0). -/
def ColliderSet.insert (s : ColliderSet) (c : Collider) :
    ColliderSet × ColliderHandle :=
  (⟨s.nextIndex + 1, (s.nextIndex, c) :: s.items⟩, ⟨s.nextIndex, 0⟩)

/-- Rigid-body arena: fresh-index counter plus association list. -/
structure RigidBodySet where
  nextIndex : ℕ
  items : List (ℕ × RigidBody)

/-- The empty rigid-body arena (`RigidBodySet::new()`). -/
def RigidBodySet.empty : RigidBodySet := ⟨0, []⟩

/-- Look a body up by handle (`RigidBodySet::get` / `get_mut`). -/
def RigidBodySet.get (s : RigidBodySet) (h : ℕ) : Option RigidBody :=
  (s.items.find? (fun p => p.1 = h)).map Prod.snd

/-- Apply an in-place mutation to the body at a handle (models the
`get_mut(..).unwrap()` followed by field updates; a missing handle leaves
the arena unchanged, where the source would abort — entry points that
unwrap are therefore stated under a hypothesis that the handle is live). -/
def RigidBodySet.modify (s : RigidBodySet) (h : ℕ) (f : RigidBody → RigidBody) :
    RigidBodySet :=
  ⟨s.nextIndex, s.items.map (fun p => if p.1 = h then (p.1, f p.2) else p)⟩

/-- Integration parameters, restricted to the fields the wrapper touches
(rapier `IntegrationParameters`). -/
structure IntegrationParameters where
  dt : ℚ
  min_ccd_dt : ℚ
  num_solver_iterations : ℕ
  num_internal_pgs_iterations : ℕ
  num_additional_friction_iterations : ℕ
  num_internal_stabilization_iterations : ℕ
  max_ccd_substeps : ℕ
  contact_damping_ratio : ℚ
  joint_damping_ratio : ℚ
  contact_natural_frequency : ℚ
  joint_natural_frequency : ℚ
  normalized_prediction_distance : ℚ
  normalized_max_corrective_velocity : ℚ
  length_unit : ℚ

/-- Engine defaults, modelled from rapier's `IntegrationParameters::default()`
(external to this repository).  Only `dt` and `min_ccd_dt` are subsequently
overridden by the wrapper's own default constructor and asserted by the
spec; the others are carried for completeness. -/
def IntegrationParameters.default : IntegrationParameters where
  dt := 1 / 60
  min_ccd_dt := 1 / 60 / 100
  num_solver_iterations := 4
  num_internal_pgs_iterations := 1
  num_additional_friction_iterations := 4
  num_internal_stabilization_iterations := 2
  max_ccd_substeps := 1
  contact_damping_ratio := 5
  joint_damping_ratio := 1
  contact_natural_frequency := 30
  joint_natural_frequency := 1000000
  normalized_prediction_distance := 1 / 500
  normalized_max_corrective_velocity := 10
  length_unit := 1

/-- Impulse joint, restricted to the connectivity data the wrapper sets. -/
structure ImpulseJoint where
  body1 : ℕ
  body2 : ℕ
  contacts_enabled : Bool

/-- The whole simulation world (`PhysicsSolverData`), restricted to the
fields the boundary reads or writes.  The transient pipelines (broad/narrow
phase, islands, CCD, query pipeline) are opaque to every claim and carry no
modelled state. -/
structure PhysicsSolverData where
  gravity : Vector3 ℚ
  integration_parameters : IntegrationParameters
  rigid_body_set : RigidBodySet
  collider_set : ColliderSet
  impulse_joint_set : List (ℕ × ImpulseJoint)
  multibody_joint_set : List (ℕ × ImpulseJoint)

/-- Default world state (`PhysicsSolverData::default()`): engine-default integration parameters
with `dt` and `min_ccd_dt` overridden, gravity (0, -9.81, 0), and empty
entity collections. -/
def PhysicsSolverData.default : PhysicsSolverData where
  gravity := ⟨0, -981 / 100, 0⟩
  integration_parameters :=
    { IntegrationParameters.default with dt := 1 / 50, min_ccd_dt := 1 / 50 / 100 }
  rigid_body_set := RigidBodySet.empty
  collider_set := ColliderSet.empty
  impulse_joint_set := []
  multibody_joint_set := []

/-- Entry point `init()`: replaces whatever world state exists with a fresh default
world (the logger assignment is an external side effect and carries no
modelled state). -/
def init (_s : Option PhysicsSolverData) : Option PhysicsSolverData :=
  some PhysicsSolverData.default

/-- Entry point `teardown()`: discards the world. -/
def teardown (_s : Option PhysicsSolverData) : Option PhysicsSolverData :=
  none

/-- Componentwise division of a 3-vector by a scalar (the source divides a
nalgebra vector by `rb.mass()`). -/
def Vector3.div {α : Type} [Div α] (v : Vector3 α) (c : α) : Vector3 α :=
  ⟨v.x / c, v.y / c, v.z / c⟩

/-- Force application mode (`ForceMode`, matching Unity's enumeration with
its discriminants 0, 1, 2, 5). -/
inductive ForceMode where
  | Force
  | Impulse
  | VelocityChange
  | Acceleration
deriving DecidableEq, Repr

/-- Velocity increment applied by `add_force` / `add_torque` for one mode:
`Force` adds `F·dt/m`, `Impulse` adds `F/m`, `VelocityChange` adds `F`,
`Acceleration` adds `F·dt`. -/
def forceModeDelta (mode : ForceMode) (f : Vector3 ℚ) (dt mass : ℚ) :
    Vector3 ℚ :=
  match mode with
  | .Force => (Vector3.smul dt f).div mass
  | .Impulse => f.div mass
  | .VelocityChange => f
  | .Acceleration => Vector3.smul dt f

/-- Entry point `add_force`: reads the body's linear velocity, adds the
mode-dependent increment, and writes the velocity back (`set_linvel`
modelled as direct assignment; no force accumulator is involved). -/
def add_force (psd : PhysicsSolverData) (rb_handle : ℕ)
    (force_x force_y force_z : ℚ) (mode : ForceMode) : PhysicsSolverData :=
  { psd with
    rigid_body_set := psd.rigid_body_set.modify rb_handle (fun rb =>
      { rb with
        linvel := rb.linvel.add
          (forceModeDelta mode ⟨force_x, force_y, force_z⟩
            psd.integration_parameters.dt rb.mass) }) }

/-- Entry point `add_torque`: same four mode semantics as `add_force`,
applied to the angular velocity. -/
def add_torque (psd : PhysicsSolverData) (rb_handle : ℕ)
    (torque_x torque_y torque_z : ℚ) (mode : ForceMode) : PhysicsSolverData :=
  { psd with
    rigid_body_set := psd.rigid_body_set.modify rb_handle (fun rb =>
      { rb with
        angvel := rb.angvel.add
          (forceModeDelta mode ⟨torque_x, torque_y, torque_z⟩
            psd.integration_parameters.dt rb.mass) }) }

/-- Transform record returned across the boundary (`RapierTransform`):
the current pose's rotation coordinates and translation vector. -/
structure RapierTransform where
  rotation : Quat ℝ
  position : Vector3 ℚ

/-- Entry point `get_transform`: reads `rb.position()` — the body's
*current* pose, not the next kinematic pose.  A missing handle is an
unwrap failure in the source; modelled as `none`. -/
def get_transform (psd : PhysicsSolverData) (rb_handle : ℕ) :
    Option RapierTransform :=
  (psd.rigid_body_set.get rb_handle).map (fun rb =>
    { rotation := rb.position.rotation, position := rb.position.translation })

/-- Rapier `RigidBody::set_next_kinematic_position` (external to this
repository): overwrites the whole next pose, only for kinematic bodies. -/
def RigidBody.set_next_kinematic_position (rb : RigidBody) (iso : Isometry) :
    RigidBody :=
  if rb.body_type.isKinematic then { rb with next_position := iso } else rb

/-- Rapier `RigidBody::set_next_kinematic_rotation` (external to this
repository): overwrites only the rotation of the next pose, keeping its
translation, only for kinematic bodies. -/
def RigidBody.set_next_kinematic_rotation (rb : RigidBody) (q : Quat ℝ) :
    RigidBody :=
  if rb.body_type.isKinematic then
    { rb with next_position := { rb.next_position with rotation := q } }
  else rb

/-- Entry point `set_transform_position`: builds an isometry from the new
translation and the *current next pose's* rotation (the source comments
this as the trick letting position and rotation be set in either order),
then writes it as the next kinematic pose. -/
def set_transform_position (psd : PhysicsSolverData) (rb_handle : ℕ)
    (position_x position_y position_z : ℚ) : PhysicsSolverData :=
  { psd with
    rigid_body_set := psd.rigid_body_set.modify rb_handle (fun rb =>
      rb.set_next_kinematic_position
        ⟨⟨position_x, position_y, position_z⟩, rb.next_position.rotation⟩) }

/-- Quaternion normalisation (nalgebra `UnitQuaternion::new_normalize`):
divides every component by the Euclidean norm. -/
noncomputable def qnormalize (q : Quat ℝ) : Quat ℝ :=
  let n := Real.sqrt (q.x ^ 2 + q.y ^ 2 + q.z ^ 2 + q.w ^ 2)
  ⟨q.x / n, q.y / n, q.z / n, q.w / n⟩

/-- Entry point `set_transform_rotation`: normalises the incoming
quaternion and writes it as the rotation of the next kinematic pose. -/
noncomputable def set_transform_rotation (psd : PhysicsSolverData)
    (rb_handle : ℕ) (rotation_x rotation_y rotation_z rotation_w : ℚ) :
    PhysicsSolverData :=
  { psd with
    rigid_body_set := psd.rigid_body_set.modify rb_handle (fun rb =>
      rb.set_next_kinematic_rotation
        (qnormalize ⟨(rotation_x : ℝ), (rotation_y : ℝ),
          (rotation_z : ℝ), (rotation_w : ℝ)⟩)) }

/-- Modelled from the spec: `utils.rs` (not under `src/`) translates the
engine's 6-bit locked-axes encoding into the host's constraint bitmask.
The spec describes a 6-bit encoding of 3 translation-lock plus 3
rotation-lock bits whose bit order differs between the two sides; the
engine places the six flags at bits 0–5 (TX, TY, TZ, RX, RY, RZ) while the
host bitmask places them at bits 1–6. -/
def locked_axes_to_unity_constraints (l : ℕ) : ℕ :=
  (if l.testBit 0 then 2 else 0) + (if l.testBit 1 then 4 else 0) +
  (if l.testBit 2 then 8 else 0) + (if l.testBit 3 then 16 else 0) +
  (if l.testBit 4 then 32 else 0) + (if l.testBit 5 then 64 else 0)

/-- Modelled from the spec: inverse bit-order translation, host constraint
bitmask (bits 1–6) to engine locked-axes bits (bits 0–5). -/
def unity_constraints_to_locked_axes (c : ℕ) : ℕ :=
  (if c.testBit 1 then 1 else 0) + (if c.testBit 2 then 2 else 0) +
  (if c.testBit 3 then 4 else 0) + (if c.testBit 4 then 8 else 0) +
  (if c.testBit 5 then 16 else 0) + (if c.testBit 6 then 32 else 0)

/-- Modelled from the spec: `cancel_axis_velocity` in `utils.rs` (not under
`src/`) zeroes the velocity components along the axes locked by the
supplied locked-axes bits (linear components for the translation locks,
angular components for the rotation locks), leaving every other component
untouched. -/
def cancel_axis_velocity (locks : ℕ) (rb : RigidBody) : RigidBody :=
  { rb with
    linvel := ⟨if locks.testBit 0 then 0 else rb.linvel.x,
               if locks.testBit 1 then 0 else rb.linvel.y,
               if locks.testBit 2 then 0 else rb.linvel.z⟩,
    angvel := ⟨if locks.testBit 3 then 0 else rb.angvel.x,
               if locks.testBit 4 then 0 else rb.angvel.y,
               if locks.testBit 5 then 0 else rb.angvel.z⟩ }

/-- Body-level effect of `update_rigid_body_properties`: reclassify the
body type if different, set the CCD flag, translate and compare the
constraint bitmask — updating the locked axes and cancelling the newly
locked axes' velocities only when it differs — then set both damping
values.  (Rapier's `set_body_type` is modelled per the spec as a
reclassification only.) -/
def updateBodyProperties (rb : RigidBody) (rb_type : RigidBodyType)
    (enable_ccd : Bool) (constraints : ℕ) (linear_drag angular_drag : ℚ) :
    RigidBody :=
  let rb1 := if rb.body_type ≠ rb_type then { rb with body_type := rb_type } else rb
  let rb2 := { rb1 with ccd_enabled := enable_ccd }
  let rb3 :=
    if locked_axes_to_unity_constraints rb2.locked_axes ≠ constraints then
      let locks := unity_constraints_to_locked_axes constraints
      cancel_axis_velocity locks { rb2 with locked_axes := locks }
    else rb2
  { rb3 with linear_damping := linear_drag, angular_damping := angular_drag }

/-- Entry point `update_rigid_body_properties`. -/
def update_rigid_body_properties (psd : PhysicsSolverData) (rb_handle : ℕ)
    (rb_type : RigidBodyType) (enable_ccd : Bool) (constraints : ℕ)
    (linear_drag angular_drag : ℚ) : PhysicsSolverData :=
  { psd with
    rigid_body_set := psd.rigid_body_set.modify rb_handle (fun rb =>
      updateBodyProperties rb rb_type enable_ccd constraints linear_drag
        angular_drag) }

/-- Entry point `set_integration_parameters`: writes every tunable; the
solver-iteration count passes through `NonZeroUsize::new(..).unwrap_or(4)`,
so a zero request becomes 4. -/
def set_integration_parameters (psd : PhysicsSolverData) (dt : ℚ)
    (solver_iterations solver_pgs_iterations
     solver_additional_friction_iterations solver_stabilization_iterations
     ccd_substeps : ℕ)
    (contact_damping_ratio joint_damping_ratio contact_frequency
     joint_frequency prediction_distance max_corrective_velocity
     length_unit : ℚ) : PhysicsSolverData :=
  { psd with
    integration_parameters :=
      { dt := dt
        min_ccd_dt := dt / 100
        num_solver_iterations :=
          if solver_iterations = 0 then 4 else solver_iterations
        num_internal_pgs_iterations := solver_pgs_iterations
        num_additional_friction_iterations :=
          solver_additional_friction_iterations
        num_internal_stabilization_iterations :=
          solver_stabilization_iterations
        max_ccd_substeps := ccd_substeps
        contact_damping_ratio := contact_damping_ratio
        joint_damping_ratio := joint_damping_ratio
        contact_natural_frequency := contact_frequency
        joint_natural_frequency := joint_frequency
        normalized_prediction_distance := prediction_distance
        normalized_max_corrective_velocity := max_corrective_velocity
        length_unit := length_unit } }

/-- Raw collision event as seen by the wrapper through the engine's
accessors `collider1()`, `collider2()`, `started()`, `stopped()`.  The
engine's own event type guarantees that exactly one of the two flags
holds; the wrapper only ever branches on the two accessors, so the event
is embedded as the record of their values. -/
structure RawCollisionEvent where
  collider1 : ColliderHandle
  collider2 : ColliderHandle
  started : Bool
  stopped : Bool
deriving DecidableEq, Repr

/-- Value object handed back to the host for one collision event
(`SerializableCollisionEvent`). -/
structure SerializableCollisionEvent where
  collider1 : ColliderHandle
  collider2 : ColliderHandle
  is_started : Bool
deriving DecidableEq, Repr

/-- Translation of one raw event: a started event maps to the value object
with flag `true`, a stopped event to flag `false`, and an event that is
neither is dropped (`none`). -/
def translateEvent (e : RawCollisionEvent) : Option SerializableCollisionEvent :=
  if e.started then some ⟨e.collider1, e.collider2, true⟩
  else if e.stopped then some ⟨e.collider1, e.collider2, false⟩
  else none

/-- Drain loop of `PhysicsSolverData::solve`: walk the events received on
this call's channel in order, pushing a value object for each started or
stopped event and logging a warning for anything else. -/
def drainEvents : List RawCollisionEvent →
    List SerializableCollisionEvent × List String
  | [] => ([], [])
  | e :: rest =>
    let r := drainEvents rest
    if e.started then (⟨e.collider1, e.collider2, true⟩ :: r.1, r.2)
    else if e.stopped then (⟨e.collider1, e.collider2, false⟩ :: r.1, r.2)
    else (r.1, "Unknown collision event" :: r.2)

/-- Method `PhysicsSolverData::solve`: runs one engine step (the external
`PhysicsPipeline::step`, taken as a parameter producing the next world
state and the events it pushes into the channel created fresh for this
call), then fully drains that channel.  Returns the new state, the
translated event buffer, and the warnings logged while draining. -/
def PhysicsSolverData.solve
    (step : PhysicsSolverData → PhysicsSolverData × List RawCollisionEvent)
    (psd : PhysicsSolverData) :
    PhysicsSolverData × List SerializableCollisionEvent × List String :=
  let r := step psd
  let d := drainEvents r.2
  (r.1, d.1, d.2)

/-- Entry point `solve()`: when no world exists, logs a warning and returns
a null pointer (modelled as `none`) leaving the state as it is; otherwise
delegates to `PhysicsSolverData::solve` and boxes the resulting buffer
(ownership transfer is not modelled). -/
def solveFFI
    (step : PhysicsSolverData → PhysicsSolverData × List RawCollisionEvent)
    (s : Option PhysicsSolverData) :
    Option PhysicsSolverData × Option (List SerializableCollisionEvent) ×
      List String :=
  match s with
  | none => (none, none, ["Physics solver data is not initialized"])
  | some psd =>
    let r := psd.solve step
    (some r.1, some r.2.1, r.2.2)

/-- Grouping loop shared by the mesh-collider entry points: reads the flat
scalar array three entries at a time into points (out-of-range reads would
be undefined behaviour in the source; modelled as defaulting to 0). -/
def groupVertices (flat : List ℚ) (count : ℕ) : List (Vector3 ℚ) :=
  (List.range count).map (fun i =>
    ⟨flat.getD (i * 3) 0, flat.getD (i * 3 + 1) 0, flat.getD (i * 3 + 2) 0⟩)

/-- Grouping loop for the flat index array, three indices per triangle. -/
def groupIndices (flat : List ℕ) (count : ℕ) : List (ℕ × ℕ × ℕ) :=
  (List.range count).map (fun i =>
    (flat.getD (i * 3) 0, flat.getD (i * 3 + 1) 0, flat.getD (i * 3 + 2) 0))

/-- Modelled from the engine contract (external to this repository):
`ColliderBuilder::trimesh` fails exactly when the mesh has no triangles
(an empty index list); otherwise it yields the triangle-mesh shape. -/
def trimeshBuilder (vertices : List (Vector3 ℚ)) (indices : List (ℕ × ℕ × ℕ)) :
    Option ColliderShape :=
  if indices.isEmpty then none else some (.trimesh vertices indices)

/-- Entry point `add_mesh_collider`, parameterised over the engine's
triangle-mesh constructor (`mkTrimesh`; `trimeshBuilder` is its concrete
model): on success inserts the collider and returns its handle, on failure
logs a warning and returns the sentinel invalid handle with the world
unchanged. -/
def add_mesh_collider
    (mkTrimesh : List (Vector3 ℚ) → List (ℕ × ℕ × ℕ) → Option ColliderShape)
    (psd : PhysicsSolverData) (vertices_flat : List ℚ) (vertices_count : ℕ)
    (indices_flat : List ℕ) (indices_count : ℕ) (mass : ℚ)
    (is_sensor : Bool) : PhysicsSolverData × ColliderHandle × List String :=
  let vertices := groupVertices vertices_flat vertices_count
  let indices := groupIndices indices_flat indices_count
  match mkTrimesh vertices indices with
  | some shape =>
    let r := psd.collider_set.insert
      { shape := shape, density := mass, sensor := is_sensor
        collision_events := true, parent := none }
    ({ psd with collider_set := r.1 }, r.2, [])
  | none => (psd, ColliderHandle.invalid, ["Failed to create mesh collider"])

/-- Entry point `add_convex_mesh_collider`, parameterised over the engine's
convex-hull constructor (external; returns `none` on an empty or degenerate
point set): on failure logs a warning and returns the sentinel invalid
handle with the world unchanged. -/
def add_convex_mesh_collider
    (mkHull : List (Vector3 ℚ) → Option ColliderShape)
    (psd : PhysicsSolverData) (vertices_flat : List ℚ) (vertices_count : ℕ)
    (mass : ℚ) (is_sensor : Bool) :
    PhysicsSolverData × ColliderHandle × List String :=
  let points := groupVertices vertices_flat vertices_count
  match mkHull points with
  | some shape =>
    let r := psd.collider_set.insert
      { shape := shape, density := mass, sensor := is_sensor
        collision_events := true, parent := none }
    ({ psd with collider_set := r.1 }, r.2, [])
  | none =>
    (psd, ColliderHandle.invalid, ["Failed to create convex hull collider"])

/-- Ray with origin and (unnormalised) direction. -/
structure Ray where
  origin : Vector3 ℚ
  dir : Vector3 ℚ
deriving DecidableEq, Repr

/-- Point reached at parameter `t` along a ray (`Ray::point_at`). -/
def Ray.pointAt (r : Ray) (t : ℚ) : Vector3 ℚ :=
  r.origin.add (Vector3.smul t r.dir)

/-- Shape feature hit by a ray (parry `FeatureId`). -/
inductive FeatureId where
  | Face (id : ℕ)
  | Vertex (id : ℕ)
  | Edge (id : ℕ)
  | Unknown
deriving DecidableEq, Repr

/-- Intersection record produced by the engine's ray query. -/
structure RayIntersection where
  time_of_impact : ℚ
  normal : Vector3 ℚ
  feature : FeatureId
deriving DecidableEq, Repr

/-- Two-component vector for the UV slot of a raycast hit. -/
structure Vector2 (α : Type) where
  x : α
  y : α
deriving DecidableEq, Repr

/-- Feature-identifier extraction in `cast_ray`: the face, vertex or edge
index, defaulting to 0 for untyped features. -/
def featureIdCode : FeatureId → ℕ
  | .Face id => id
  | .Vertex id => id
  | .Edge id => id
  | .Unknown => 0

/-- Output record written through the caller-supplied pointer
(`RaycastHit`). -/
structure RaycastHit where
  m_point : Vector3 ℚ
  m_normal : Vector3 ℚ
  m_face_id : ℕ
  m_distance : ℚ
  m_uv : Vector2 ℚ
  m_collider : ColliderHandle
deriving DecidableEq, Repr

/-- Entry point `cast_ray`, parameterised over the engine's nearest-hit
query (`QueryPipeline::cast_ray_and_get_normal`, external; arguments are
the ray, the maximum time of impact, and the solid flag).  The source
calls it with maximum distance 4.0 and `solid = true`.  The caller's
output record (`out_hit`) is threaded through: on a miss the function
returns `false` and writes nothing, leaving the record as it was. -/
def cast_ray
    (query : Ray → ℚ → Bool → Option (ColliderHandle × RayIntersection))
    (psd : PhysicsSolverData) (out_hit : RaycastHit)
    (from_x from_y from_z dir_x dir_y dir_z : ℚ) : Bool × RaycastHit :=
  let _ := psd
  let ray : Ray := ⟨⟨from_x, from_y, from_z⟩, ⟨dir_x, dir_y, dir_z⟩⟩
  match query ray 4 true with
  | some (handle, intersection) =>
    let point := ray.pointAt intersection.time_of_impact
    let normal := intersection.normal
    let face_id := featureIdCode intersection.feature
    let distance := intersection.time_of_impact
    let uv : Vector2 ℚ := ⟨0, 0⟩
    (true,
      { m_point := point, m_normal := normal, m_face_id := face_id
        m_distance := distance, m_uv := uv, m_collider := handle })
  | none => (false, out_hit)

/-- Euclidean norm of a quaternion. -/
noncomputable def quatNorm (q : Quat ℝ) : ℝ :=
  Real.sqrt (q.x ^ 2 + q.y ^ 2 + q.z ^ 2 + q.w ^ 2)

/-- Norm of the imaginary (vector) part of a quaternion. -/
noncomputable def imagNorm (q : Quat ℝ) : ℝ :=
  Real.sqrt (q.x ^ 2 + q.y ^ 2 + q.z ^ 2)

/-- Two-argument arctangent restricted to the nonnegative arguments the
rotation-angle computation feeds it (`y = ‖imag‖ ≥ 0`, `x = |w| ≥ 0`). -/
noncomputable def atan2nn (y x : ℝ) : ℝ :=
  if x = 0 then (if y = 0 then 0 else Real.pi / 2) else Real.arctan (y / x)

/-- Rotation angle of a unit quaternion (nalgebra `UnitQuaternion::angle`):
twice the arctangent of the imaginary norm against the absolute scalar. -/
noncomputable def uqAngle (q : Quat ℝ) : ℝ :=
  2 * atan2nn (imagNorm q) |q.w|

/-- Rotation axis of a unit quaternion (nalgebra `UnitQuaternion::axis`):
the normalised imaginary part, sign-flipped when the scalar is negative;
`none` when the imaginary part vanishes (no well-defined axis). -/
noncomputable def uqAxis (q : Quat ℝ) : Option (Vector3 ℝ) :=
  let v : Vector3 ℝ :=
    if 0 ≤ q.w then ⟨q.x, q.y, q.z⟩ else ⟨-q.x, -q.y, -q.z⟩
  if q.x = 0 ∧ q.y = 0 ∧ q.z = 0 then none
  else some (Vector3.smul (1 / Real.sqrt (v.x ^ 2 + v.y ^ 2 + v.z ^ 2)) v)

/-- Unit z-axis, the fallback rotation axis (`Vector3::z_axis()`). -/
def zAxis : Vector3 ℝ := ⟨0, 0, 1⟩

/-- Rotation conversion inside `add_rigid_body` (lines 252–262 of the
source): normalise the incoming quaternion, extract its angle and axis
(falling back to the z-axis when there is none), and hand the body builder
the rotation vector axis·angle. -/
noncomputable def add_rigid_body_rotation (x y z w : ℝ) : Vector3 ℝ :=
  let quat : Quat ℝ := ⟨x, y, z, w⟩
  let unit_quat := qnormalize quat
  let angle := uqAngle unit_quat
  let axis := (uqAxis unit_quat).getD zAxis
  Vector3.smul angle axis

/-- Identity pose used by the concrete test fixtures. -/
def isoId : Isometry := ⟨⟨0, 0, 0⟩, ⟨0, 0, 0, 1⟩⟩

/-- Concrete dynamic body used to instantiate theorems with hypotheses. -/
def sampleBody : RigidBody where
  body_type := .Dynamic
  position := isoId
  next_position := isoId
  linvel := ⟨10, 20, 30⟩
  angvel := ⟨1, 2, 3⟩
  mass := 2
  user_force := ⟨0, 0, 0⟩
  locked_axes := 0
  ccd_enabled := false
  linear_damping := 0
  angular_damping := 0

/-- Concrete kinematic body used to instantiate theorems with hypotheses. -/
def kinBody : RigidBody where
  body_type := .KinematicPositionBased
  position := isoId
  next_position := isoId
  linvel := ⟨0, 0, 0⟩
  angvel := ⟨0, 0, 0⟩
  mass := 1
  user_force := ⟨0, 0, 0⟩
  locked_axes := 0
  ccd_enabled := false
  linear_damping := 0
  angular_damping := 0

/-- Concrete world holding `sampleBody` at handle 0 and `kinBody` at
handle 1. -/
def samplePSD : PhysicsSolverData :=
  { PhysicsSolverData.default with
    rigid_body_set := ⟨2, [(0, sampleBody), (1, kinBody)]⟩ }

/-- Looking up the modified handle finds the mutated entry. -/
theorem find_modify (items : List (ℕ × RigidBody)) (h : ℕ)
    (f : RigidBody → RigidBody) :
    ((items.map (fun p => if p.1 = h then (p.1, f p.2) else p)).find?
        (fun p => p.1 = h)) =
      (items.find? (fun p => p.1 = h)).map (fun p => (p.1, f p.2)) := by
  induction items with
  | nil => rfl
  | cons p rest ih =>
    by_cases hp : p.1 = h
    · simp [hp]
    · simp [hp, ih]

/-- Arena-level reading of `modify`: getting the modified handle returns
the function applied to whatever was there. -/
theorem RigidBodySet.get_modify (s : RigidBodySet) (h : ℕ)
    (f : RigidBody → RigidBody) :
    (s.modify h f).get h = (s.get h).map f := by
  simp only [RigidBodySet.get, RigidBodySet.modify]
  rw [find_modify]
  cases List.find? (fun p => decide (p.1 = h)) s.items <;> rfl

/-- C6: `init()` always constructs a Simulation World with gravity exactly
(0, -9.81, 0), timestep 1/50, minimum CCD timestep equal to timestep/100,
and all four entity collections empty; this holds for the first `init()`
and equally after any `teardown()` followed by `init()` again. -/
theorem C6_init_defaults (s : Option PhysicsSolverData) :
    init s = some PhysicsSolverData.default ∧
    PhysicsSolverData.default.gravity = ⟨0, -(981 / 100), 0⟩ ∧
    PhysicsSolverData.default.integration_parameters.dt = 1 / 50 ∧
    PhysicsSolverData.default.integration_parameters.min_ccd_dt =
      PhysicsSolverData.default.integration_parameters.dt / 100 ∧
    PhysicsSolverData.default.rigid_body_set.items = [] ∧
    PhysicsSolverData.default.collider_set.items = [] ∧
    PhysicsSolverData.default.impulse_joint_set = [] ∧
    PhysicsSolverData.default.multibody_joint_set = [] ∧
    init (teardown (init s)) = some PhysicsSolverData.default := by
  refine ⟨rfl, ?_, rfl, ?_, rfl, rfl, rfl, rfl, rfl⟩ <;>
    norm_num [PhysicsSolverData.default]

/-- C3: calling `solve()` when the Simulation World does not exist is a
no-op that emits a diagnostic and returns a null pointer (modelled as
`none`), never a crash; the world state is unchanged by such a call —
regardless of what the engine step would have done. -/
theorem C3_solve_uninitialized_world
    (step : PhysicsSolverData → PhysicsSolverData × List RawCollisionEvent) :
    solveFFI step none =
      (none, none, ["Physics solver data is not initialized"]) := rfl

/-- C10: `set_integration_parameters` with `solver_iterations = 0` sets the
number of solver iterations to 4 instead of 0; any nonzero value is used
as given. -/
theorem C10_solver_iterations_zero_fallback (psd : PhysicsSolverData)
    (dt : ℚ) (si pgs fric stab ccd : ℕ)
    (cdr jdr cf jf pd mcv lu : ℚ) :
    (si = 0 →
      (set_integration_parameters psd dt si pgs fric stab ccd cdr jdr cf jf
        pd mcv lu).integration_parameters.num_solver_iterations = 4) ∧
    (si ≠ 0 →
      (set_integration_parameters psd dt si pgs fric stab ccd cdr jdr cf jf
        pd mcv lu).integration_parameters.num_solver_iterations = si) := by
  constructor <;> intro h <;> simp [set_integration_parameters, h]

/-- Witness for C10 at `solver_iterations = 0` and `= 7`. -/
theorem C10_witness :
    (set_integration_parameters PhysicsSolverData.default 1 0 1 4 2 1 5 1 30
        1000000 1 10 1).integration_parameters.num_solver_iterations = 4 ∧
    (set_integration_parameters PhysicsSolverData.default 1 7 1 4 2 1 5 1 30
        1000000 1 10 1).integration_parameters.num_solver_iterations = 7 :=
  ⟨(C10_solver_iterations_zero_fallback PhysicsSolverData.default 1 0 1 4 2 1
      5 1 30 1000000 1 10 1).1 rfl,
   (C10_solver_iterations_zero_fallback PhysicsSolverData.default 1 7 1 4 2 1
      5 1 30 1000000 1 10 1).2 (by decide)⟩

/-- C1: for every rigid body with nonzero mass m and force vector F,
`add_force` mutates linear velocity directly — the posterior body is the
prior one with only `linvel` incremented, so no force accumulator or other
field changes — and the increment follows the mode: `Force` adds F·dt/m,
`Impulse` adds F/m, `VelocityChange` adds F, `Acceleration` adds F·dt,
with dt the configured timestep; `add_torque` applies the same four
semantics to the angular velocity. -/
theorem C1_force_mode_semantics (psd : PhysicsSolverData) (hnd : ℕ)
    (rb : RigidBody) (fx fy fz : ℚ) (mode : ForceMode)
    (hget : psd.rigid_body_set.get hnd = some rb) (hm : rb.mass ≠ 0) :
    ((add_force psd hnd fx fy fz mode).rigid_body_set.get hnd =
      some { rb with linvel := rb.linvel.add (forceModeDelta mode ⟨fx, fy, fz⟩
        psd.integration_parameters.dt rb.mass) }) ∧
    ((add_torque psd hnd fx fy fz mode).rigid_body_set.get hnd =
      some { rb with angvel := rb.angvel.add (forceModeDelta mode ⟨fx, fy, fz⟩
        psd.integration_parameters.dt rb.mass) }) ∧
    (forceModeDelta .Force ⟨fx, fy, fz⟩ psd.integration_parameters.dt rb.mass
      = ⟨fx * psd.integration_parameters.dt / rb.mass,
         fy * psd.integration_parameters.dt / rb.mass,
         fz * psd.integration_parameters.dt / rb.mass⟩) ∧
    (forceModeDelta .Impulse ⟨fx, fy, fz⟩ psd.integration_parameters.dt
      rb.mass = ⟨fx / rb.mass, fy / rb.mass, fz / rb.mass⟩) ∧
    (forceModeDelta .VelocityChange ⟨fx, fy, fz⟩ psd.integration_parameters.dt
      rb.mass = ⟨fx, fy, fz⟩) ∧
    (forceModeDelta .Acceleration ⟨fx, fy, fz⟩ psd.integration_parameters.dt
      rb.mass = ⟨fx * psd.integration_parameters.dt,
                 fy * psd.integration_parameters.dt,
                 fz * psd.integration_parameters.dt⟩) := by
  refine ⟨?_, ?_, ?_, rfl, rfl, ?_⟩
  · simp [add_force, RigidBodySet.get_modify, hget]
  · simp [add_torque, RigidBodySet.get_modify, hget]
  · simp [forceModeDelta, Vector3.smul, Vector3.div, mul_comm]
  · simp [forceModeDelta, Vector3.smul, mul_comm]

/-- Witness for C1: impulse of (6, 8, 10) on the mass-2 sample body adds
(3, 4, 5) to its linear velocity (10, 20, 30). -/
theorem C1_witness :
    samplePSD.rigid_body_set.get 0 = some sampleBody ∧
    sampleBody.mass ≠ 0 ∧
    (add_force samplePSD 0 6 8 10 ForceMode.Impulse).rigid_body_set.get 0 =
      some { sampleBody with linvel := ⟨13, 24, 35⟩ } := by
  refine ⟨rfl, by norm_num [sampleBody], ?_⟩
  have h := (C1_force_mode_semantics samplePSD 0 sampleBody 6 8 10
    ForceMode.Impulse rfl (by norm_num [sampleBody])).1
  have hv : sampleBody.linvel.add (forceModeDelta ForceMode.Impulse
      ⟨6, 8, 10⟩ samplePSD.integration_parameters.dt sampleBody.mass) =
      (⟨13, 24, 35⟩ : Vector3 ℚ) := by
    norm_num [sampleBody, forceModeDelta, Vector3.div, Vector3.add]
  rw [hv] at h
  exact h

/-- Drained buffer equals the per-event translation of the received
events, in order. -/
theorem drainEvents_fst (evs : List RawCollisionEvent) :
    (drainEvents evs).1 = evs.filterMap translateEvent := by
  induction evs with
  | nil => rfl
  | cons e rest ih =>
    by_cases hs : e.started = true
    · simp [drainEvents, translateEvent, hs, ih]
    · by_cases hp : e.stopped = true
      · simp [drainEvents, translateEvent, hs, hp, ih]
      · simp [drainEvents, translateEvent, hs, hp, ih]

/-- One warning is logged per event that is neither started nor stopped. -/
theorem drainEvents_warnings (evs : List RawCollisionEvent) :
    (drainEvents evs).2.length =
      (evs.filter (fun x => !x.started && !x.stopped)).length := by
  induction evs with
  | nil => rfl
  | cons e rest ih =>
    by_cases hs : e.started = true
    · simp [drainEvents, hs, ih]
    · by_cases hp : e.stopped = true
      · simp [drainEvents, hs, hp, ih]
      · simp [drainEvents, hs, hp, ih]

/-- C4: every collision event emitted by a `solve()` call is translated
into a value object carrying both colliders' handles and a boolean
start/stop flag; an event that is neither started nor stopped is dropped
(never included in the buffer) with a warning logged; and the returned
buffer is the drained translation of exactly the events produced by this
call's step — the channel is created inside the call and fully drained, so
nothing carries over between calls. -/
theorem C4_event_marshalling (psd : PhysicsSolverData)
    (step : PhysicsSolverData → PhysicsSolverData × List RawCollisionEvent)
    (evs : List RawCollisionEvent) (e : RawCollisionEvent) :
    ((psd.solve step).2.1 = (drainEvents (step psd).2).1) ∧
    ((psd.solve step).2.2 = (drainEvents (step psd).2).2) ∧
    ((drainEvents evs).1 = evs.filterMap translateEvent) ∧
    (e.started = true →
      translateEvent e = some ⟨e.collider1, e.collider2, true⟩) ∧
    (e.started = false → e.stopped = true →
      translateEvent e = some ⟨e.collider1, e.collider2, false⟩) ∧
    (e.started = false → e.stopped = false → translateEvent e = none) ∧
    ((drainEvents evs).2.length =
      (evs.filter (fun x => !x.started && !x.stopped)).length) := by
  refine ⟨rfl, rfl, drainEvents_fst evs, ?_, ?_, ?_, drainEvents_warnings evs⟩
  · intro hs; simp [translateEvent, hs]
  · intro hs hp; simp [translateEvent, hs, hp]
  · intro hs hp; simp [translateEvent, hs, hp]

/-- Witness for C4: an event flagged neither started nor stopped is
dropped from the buffer. -/
theorem C4_witness :
    (⟨⟨0, 0⟩, ⟨1, 0⟩, false, false⟩ : RawCollisionEvent).started = false ∧
    (⟨⟨0, 0⟩, ⟨1, 0⟩, false, false⟩ : RawCollisionEvent).stopped = false ∧
    translateEvent ⟨⟨0, 0⟩, ⟨1, 0⟩, false, false⟩ = none :=
  ⟨rfl, rfl,
    (C4_event_marshalling PhysicsSolverData.default (fun p => (p, []))
      [] ⟨⟨0, 0⟩, ⟨1, 0⟩, false, false⟩).2.2.2.2.2.1 rfl rfl⟩

/-- C5: whenever triangle-mesh or convex-hull geometry construction fails
(the engine constructor yields nothing — malformed mesh, degenerate hull,
empty input), the entry point returns the sentinel invalid collider
handle, emits a warning, and leaves the world untouched; in particular
`add_mesh_collider` on an empty vertex/index set returns the sentinel. -/
theorem C5_geometry_failure_sentinel
    (mk : List (Vector3 ℚ) → List (ℕ × ℕ × ℕ) → Option ColliderShape)
    (hull : List (Vector3 ℚ) → Option ColliderShape)
    (psd : PhysicsSolverData) (vf : List ℚ) (vc : ℕ) (idf : List ℕ) (ic : ℕ)
    (mass : ℚ) (sensor : Bool) :
    (mk (groupVertices vf vc) (groupIndices idf ic) = none →
      add_mesh_collider mk psd vf vc idf ic mass sensor =
        (psd, ColliderHandle.invalid, ["Failed to create mesh collider"])) ∧
    (hull (groupVertices vf vc) = none →
      add_convex_mesh_collider hull psd vf vc mass sensor =
        (psd, ColliderHandle.invalid,
          ["Failed to create convex hull collider"])) ∧
    (add_mesh_collider trimeshBuilder psd [] 0 [] 0 mass sensor =
      (psd, ColliderHandle.invalid, ["Failed to create mesh collider"])) := by
  refine ⟨?_, ?_, rfl⟩
  · intro h; simp [add_mesh_collider, h]
  · intro h; simp [add_convex_mesh_collider, h]

/-- Witness for C5: empty vertex and index sets make the modelled trimesh
constructor fail, and both entry points return the sentinel. -/
theorem C5_witness :
    trimeshBuilder (groupVertices [] 0) (groupIndices [] 0) = none ∧
    ((fun _ => none : List (Vector3 ℚ) → Option ColliderShape)
      (groupVertices [] 0) = none) ∧
    add_mesh_collider trimeshBuilder PhysicsSolverData.default [] 0 [] 0 1
      false = (PhysicsSolverData.default, ColliderHandle.invalid,
        ["Failed to create mesh collider"]) ∧
    add_convex_mesh_collider (fun _ => none) PhysicsSolverData.default [] 0 1
      false = (PhysicsSolverData.default, ColliderHandle.invalid,
        ["Failed to create convex hull collider"]) :=
  ⟨rfl, rfl,
    (C5_geometry_failure_sentinel trimeshBuilder (fun _ => none)
      PhysicsSolverData.default [] 0 [] 0 1 false).1 rfl,
    (C5_geometry_failure_sentinel trimeshBuilder (fun _ => none)
      PhysicsSolverData.default [] 0 [] 0 1 false).2.1 rfl⟩

/-- C9: `cast_ray` performs a nearest-hit query with fixed maximum
distance 4 and solid flag, returning a boolean success flag and never
throwing; on a hit the caller record receives the hit point along the ray,
the surface normal, the feature index (face/vertex/edge id, 0 for untyped
features), the parametric distance, and an always-zero UV; on a miss it
returns `false` and leaves the caller record untouched. -/
theorem C9_cast_ray_contract
    (query : Ray → ℚ → Bool → Option (ColliderHandle × RayIntersection))
    (psd : PhysicsSolverData) (prev : RaycastHit)
    (fx fy fz dx dy dz : ℚ) (hnd : ColliderHandle) (i : RayIntersection)
    (n : ℕ) :
    (query ⟨⟨fx, fy, fz⟩, ⟨dx, dy, dz⟩⟩ 4 true = none →
      cast_ray query psd prev fx fy fz dx dy dz = (false, prev)) ∧
    (query ⟨⟨fx, fy, fz⟩, ⟨dx, dy, dz⟩⟩ 4 true = some (hnd, i) →
      cast_ray query psd prev fx fy fz dx dy dz =
        (true,
          { m_point := Ray.pointAt ⟨⟨fx, fy, fz⟩, ⟨dx, dy, dz⟩⟩
              i.time_of_impact
            m_normal := i.normal
            m_face_id := featureIdCode i.feature
            m_distance := i.time_of_impact
            m_uv := ⟨0, 0⟩
            m_collider := hnd })) ∧
    featureIdCode (FeatureId.Face n) = n ∧
    featureIdCode (FeatureId.Vertex n) = n ∧
    featureIdCode (FeatureId.Edge n) = n ∧
    featureIdCode FeatureId.Unknown = 0 := by
  refine ⟨?_, ?_, rfl, rfl, rfl, rfl⟩
  · intro h; simp [cast_ray, h]
  · intro h; simp [cast_ray, h]

/-- Witness for C9: a missing hit leaves the caller record unchanged, and
a concrete hit at distance 2 along (0,0,1) from (1,2,3) writes the point
(1,2,5), the face id 7, and a zero UV. -/
theorem C9_witness :
    ((fun _ _ _ => none :
        Ray → ℚ → Bool → Option (ColliderHandle × RayIntersection))
      ⟨⟨0, 0, 0⟩, ⟨0, 0, 1⟩⟩ 4 true = none) ∧
    cast_ray (fun _ _ _ => none) PhysicsSolverData.default
      ⟨⟨0, 0, 0⟩, ⟨0, 0, 0⟩, 0, 0, ⟨0, 0⟩, ⟨0, 0⟩⟩ 0 0 0 0 0 1 =
      (false, ⟨⟨0, 0, 0⟩, ⟨0, 0, 0⟩, 0, 0, ⟨0, 0⟩, ⟨0, 0⟩⟩) ∧
    cast_ray (fun _ _ _ => some (⟨5, 0⟩, ⟨2, ⟨0, 1, 0⟩, FeatureId.Face 7⟩))
      PhysicsSolverData.default
      ⟨⟨0, 0, 0⟩, ⟨0, 0, 0⟩, 0, 0, ⟨0, 0⟩, ⟨0, 0⟩⟩ 1 2 3 0 0 1 =
      (true, ⟨⟨1, 2, 5⟩, ⟨0, 1, 0⟩, 7, 2, ⟨0, 0⟩, ⟨5, 0⟩⟩) := by
  refine ⟨rfl, ?_, ?_⟩
  · exact (C9_cast_ray_contract (fun _ _ _ => none)
      PhysicsSolverData.default ⟨⟨0, 0, 0⟩, ⟨0, 0, 0⟩, 0, 0, ⟨0, 0⟩, ⟨0, 0⟩⟩
      0 0 0 0 0 1 ⟨0, 0⟩ ⟨0, ⟨0, 0, 0⟩, FeatureId.Unknown⟩ 0).1 rfl
  · have h := (C9_cast_ray_contract
      (fun _ _ _ => some (⟨5, 0⟩, ⟨2, ⟨0, 1, 0⟩, FeatureId.Face 7⟩))
      PhysicsSolverData.default ⟨⟨0, 0, 0⟩, ⟨0, 0, 0⟩, 0, 0, ⟨0, 0⟩, ⟨0, 0⟩⟩
      1 2 3 0 0 1 ⟨5, 0⟩ ⟨2, ⟨0, 1, 0⟩, FeatureId.Face 7⟩ 0).2.1 rfl
    have hp : Ray.pointAt ⟨⟨1, 2, 3⟩, ⟨0, 0, 1⟩⟩ 2 = (⟨1, 2, 5⟩ : Vector3 ℚ) := by
      norm_num [Ray.pointAt, Vector3.add, Vector3.smul]
    rw [hp] at h
    exact h

/-- C2 (amended): for a kinematic body, setting position and rotation in
either order updates the body's *next* kinematic pose to the last-set
position combined with the last-set (normalised) rotation — neither setter
clobbers the component written by the other, because the position setter
reads the current next pose's rotation and the rotation setter overwrites
only the next pose's rotation.  `get_transform`, however, reads the
*current* pose, which both setters leave untouched; it reflects the
last-set values only after a simulation step promotes the next pose. -/
theorem C2_next_pose_independent (psd : PhysicsSolverData) (hnd : ℕ)
    (rb : RigidBody) (px py pz qx qy qz qw : ℚ)
    (hget : psd.rigid_body_set.get hnd = some rb)
    (hkin : rb.body_type.isKinematic = true) :
    ((set_transform_rotation (set_transform_position psd hnd px py pz) hnd
        qx qy qz qw).rigid_body_set.get hnd =
      some { rb with next_position :=
        ⟨⟨px, py, pz⟩, qnormalize ⟨(qx : ℝ), (qy : ℝ), (qz : ℝ), (qw : ℝ)⟩⟩ }) ∧
    ((set_transform_position (set_transform_rotation psd hnd qx qy qz qw) hnd
        px py pz).rigid_body_set.get hnd =
      some { rb with next_position :=
        ⟨⟨px, py, pz⟩, qnormalize ⟨(qx : ℝ), (qy : ℝ), (qz : ℝ), (qw : ℝ)⟩⟩ }) ∧
    (get_transform (set_transform_rotation (set_transform_position psd hnd
        px py pz) hnd qx qy qz qw) hnd =
      some { rotation := rb.position.rotation,
             position := rb.position.translation }) := by
  refine ⟨?_, ?_, ?_⟩ <;>
    simp [set_transform_rotation, set_transform_position, get_transform,
      RigidBodySet.get_modify, hget, RigidBody.set_next_kinematic_position,
      RigidBody.set_next_kinematic_rotation, hkin]

/-- Counterexample for C2 as stated: on the kinematic sample body (current
pose at the origin), setting position (1,0,0) then the identity rotation
and immediately reading `get_transform` returns position (0,0,0) — the
current pose — not the last-set position (1,0,0). -/
theorem C2_counterexample :
    (get_transform (set_transform_rotation (set_transform_position samplePSD
        1 1 0 0) 1 0 0 0 1) 1).map RapierTransform.position =
      some ⟨0, 0, 0⟩ ∧
    (⟨0, 0, 0⟩ : Vector3 ℚ) ≠ ⟨1, 0, 0⟩ := by
  exact ⟨rfl, by decide⟩

/-- Witness for C2 (amended) on the kinematic sample body at handle 1. -/
theorem C2_witness :
    samplePSD.rigid_body_set.get 1 = some kinBody ∧
    kinBody.body_type.isKinematic = true ∧
    (set_transform_rotation (set_transform_position samplePSD 1 1 2 3) 1
        0 0 0 1).rigid_body_set.get 1 =
      some { kinBody with next_position :=
        ⟨⟨1, 2, 3⟩, qnormalize ⟨((0 : ℚ) : ℝ), ((0 : ℚ) : ℝ), ((0 : ℚ) : ℝ),
          ((1 : ℚ) : ℝ)⟩⟩ } :=
  ⟨rfl, rfl, by
    exact (C2_next_pose_independent samplePSD 1 kinBody 1 2 3 0 0 0 1
      rfl rfl).1⟩

/-- Reduced form of `updateBodyProperties` when the translated bitmask
differs from the current one: locked axes replaced, velocity components
gated by the new locks. -/
theorem updateBodyProperties_changed (rb : RigidBody)
    (rb_type : RigidBodyType) (ccd : Bool) (constraints : ℕ) (ld ad : ℚ)
    (hne : locked_axes_to_unity_constraints rb.locked_axes ≠ constraints) :
    (updateBodyProperties rb rb_type ccd constraints ld ad).locked_axes =
      unity_constraints_to_locked_axes constraints ∧
    (updateBodyProperties rb rb_type ccd constraints ld ad).linvel =
      ⟨if (unity_constraints_to_locked_axes constraints).testBit 0 then 0
        else rb.linvel.x,
       if (unity_constraints_to_locked_axes constraints).testBit 1 then 0
        else rb.linvel.y,
       if (unity_constraints_to_locked_axes constraints).testBit 2 then 0
        else rb.linvel.z⟩ ∧
    (updateBodyProperties rb rb_type ccd constraints ld ad).angvel =
      ⟨if (unity_constraints_to_locked_axes constraints).testBit 3 then 0
        else rb.angvel.x,
       if (unity_constraints_to_locked_axes constraints).testBit 4 then 0
        else rb.angvel.y,
       if (unity_constraints_to_locked_axes constraints).testBit 5 then 0
        else rb.angvel.z⟩ := by
  by_cases hbt : rb.body_type = rb_type <;>
    simp [updateBodyProperties, hbt, hne, cancel_axis_velocity]

/-- C8: when `update_rigid_body_properties` changes the constraint
bitmask, every axis that transitions from unlocked to locked has its
velocity component zeroed in the same call, while components along axes
left unlocked by the new mask (in particular all axes that remain
unlocked) keep their values; when the supplied bitmask equals the body's
current constraints after both-direction bit translation, the locked axes
and both velocities are untouched. -/
theorem C8_constraint_lock_zeroing (rb : RigidBody)
    (rb_type : RigidBodyType) (ccd : Bool) (constraints : ℕ) (ld ad : ℚ) :
    (locked_axes_to_unity_constraints rb.locked_axes ≠ constraints →
      (updateBodyProperties rb rb_type ccd constraints ld ad).locked_axes =
        unity_constraints_to_locked_axes constraints ∧
      (rb.locked_axes.testBit 0 = false →
        (unity_constraints_to_locked_axes constraints).testBit 0 = true →
        (updateBodyProperties rb rb_type ccd constraints ld ad).linvel.x = 0) ∧
      (rb.locked_axes.testBit 1 = false →
        (unity_constraints_to_locked_axes constraints).testBit 1 = true →
        (updateBodyProperties rb rb_type ccd constraints ld ad).linvel.y = 0) ∧
      (rb.locked_axes.testBit 2 = false →
        (unity_constraints_to_locked_axes constraints).testBit 2 = true →
        (updateBodyProperties rb rb_type ccd constraints ld ad).linvel.z = 0) ∧
      (rb.locked_axes.testBit 3 = false →
        (unity_constraints_to_locked_axes constraints).testBit 3 = true →
        (updateBodyProperties rb rb_type ccd constraints ld ad).angvel.x = 0) ∧
      (rb.locked_axes.testBit 4 = false →
        (unity_constraints_to_locked_axes constraints).testBit 4 = true →
        (updateBodyProperties rb rb_type ccd constraints ld ad).angvel.y = 0) ∧
      (rb.locked_axes.testBit 5 = false →
        (unity_constraints_to_locked_axes constraints).testBit 5 = true →
        (updateBodyProperties rb rb_type ccd constraints ld ad).angvel.z = 0) ∧
      ((unity_constraints_to_locked_axes constraints).testBit 0 = false →
        (updateBodyProperties rb rb_type ccd constraints ld ad).linvel.x =
          rb.linvel.x) ∧
      ((unity_constraints_to_locked_axes constraints).testBit 1 = false →
        (updateBodyProperties rb rb_type ccd constraints ld ad).linvel.y =
          rb.linvel.y) ∧
      ((unity_constraints_to_locked_axes constraints).testBit 2 = false →
        (updateBodyProperties rb rb_type ccd constraints ld ad).linvel.z =
          rb.linvel.z) ∧
      ((unity_constraints_to_locked_axes constraints).testBit 3 = false →
        (updateBodyProperties rb rb_type ccd constraints ld ad).angvel.x =
          rb.angvel.x) ∧
      ((unity_constraints_to_locked_axes constraints).testBit 4 = false →
        (updateBodyProperties rb rb_type ccd constraints ld ad).angvel.y =
          rb.angvel.y) ∧
      ((unity_constraints_to_locked_axes constraints).testBit 5 = false →
        (updateBodyProperties rb rb_type ccd constraints ld ad).angvel.z =
          rb.angvel.z)) ∧
    (locked_axes_to_unity_constraints rb.locked_axes = constraints →
      (updateBodyProperties rb rb_type ccd constraints ld ad).locked_axes =
        rb.locked_axes ∧
      (updateBodyProperties rb rb_type ccd constraints ld ad).linvel =
        rb.linvel ∧
      (updateBodyProperties rb rb_type ccd constraints ld ad).angvel =
        rb.angvel) := by
  constructor
  · intro hne
    obtain ⟨hl, hlin, hang⟩ :=
      updateBodyProperties_changed rb rb_type ccd constraints ld ad hne
    refine ⟨hl, ?_, ?_, ?_, ?_, ?_, ?_, ?_, ?_, ?_, ?_, ?_, ?_⟩ <;>
      first
        | (intro h0 h1; simp [hlin, hang, h1])
        | (intro h1; simp [hlin, hang, h1])
  · intro heq
    by_cases hbt : rb.body_type = rb_type <;>
      simp [updateBodyProperties, hbt, heq]

/-- Witness for C8: requesting the host's freeze-position-Y bit (bit 2,
value 4) on the sample body (no axes locked, velocity (10, 20, 30)) zeroes
the Y linear velocity and keeps X. -/
theorem C8_witness :
    locked_axes_to_unity_constraints sampleBody.locked_axes ≠ 4 ∧
    sampleBody.locked_axes.testBit 1 = false ∧
    (unity_constraints_to_locked_axes 4).testBit 1 = true ∧
    (updateBodyProperties sampleBody RigidBodyType.Dynamic false 4 0
      0).linvel.y = 0 ∧
    (unity_constraints_to_locked_axes 4).testBit 0 = false ∧
    (updateBodyProperties sampleBody RigidBodyType.Dynamic false 4 0
      0).linvel.x = sampleBody.linvel.x := by
  have h := C8_constraint_lock_zeroing sampleBody RigidBodyType.Dynamic
    false 4 0 0
  have hne : locked_axes_to_unity_constraints sampleBody.locked_axes ≠ 4 := by
    decide
  exact ⟨hne, by decide, by decide, (h.1 hne).2.2.1 (by decide) (by decide),
    by decide, (h.1 hne).2.2.2.2.2.2.2.1 (by decide)⟩

/-- C7: the rotation handed to the body builder by `add_rigid_body` is the
axis-angle (rotation-vector) form of the normalised quaternion — axis
times angle — and for a degenerate quaternion (zero imaginary part, hence
zero rotation angle and no well-defined axis) the axis extraction yields
nothing, the z-axis fallback is taken, and the resulting rotation vector
is zero. -/
theorem C7_axis_angle_conversion (x y z w : ℝ) :
    (add_rigid_body_rotation x y z w =
      Vector3.smul (uqAngle (qnormalize ⟨x, y, z, w⟩))
        ((uqAxis (qnormalize ⟨x, y, z, w⟩)).getD zAxis)) ∧
    (x = 0 → y = 0 → z = 0 → w ≠ 0 →
      uqAxis (qnormalize ⟨x, y, z, w⟩) = none ∧
      uqAngle (qnormalize ⟨x, y, z, w⟩) = 0 ∧
      add_rigid_body_rotation x y z w = Vector3.zero) := by
  refine ⟨rfl, ?_⟩
  intro hx hy hz hw
  subst hx; subst hy; subst hz
  have hq : qnormalize ⟨(0 : ℝ), 0, 0, w⟩ = ⟨0, 0, 0, w / |w|⟩ := by
    simp only [qnormalize]
    norm_num [Real.sqrt_sq_eq_abs]
  have habs : abs (w / abs w) = 1 := by
    rw [abs_div, abs_abs, div_self (abs_ne_zero.mpr hw)]
  have him : imagNorm ⟨(0 : ℝ), 0, 0, w / |w|⟩ = 0 := by
    simp [imagNorm]
  have haxis : uqAxis (qnormalize ⟨(0 : ℝ), 0, 0, w⟩) = none := by
    rw [hq]; simp [uqAxis]
  have hangle : uqAngle (qnormalize ⟨(0 : ℝ), 0, 0, w⟩) = 0 := by
    rw [hq]
    simp [uqAngle, him, habs, atan2nn]
  refine ⟨haxis, hangle, ?_⟩
  show Vector3.smul (uqAngle (qnormalize ⟨(0 : ℝ), 0, 0, w⟩))
    ((uqAxis (qnormalize ⟨(0 : ℝ), 0, 0, w⟩)).getD zAxis) = Vector3.zero
  rw [hangle, haxis]
  simp [Vector3.smul, zAxis, Vector3.zero]

/-- Witness for C7 at the identity quaternion (0, 0, 0, 1). -/
theorem C7_witness :
    ((1 : ℝ) ≠ 0) ∧
    uqAxis (qnormalize ⟨(0 : ℝ), 0, 0, 1⟩) = none ∧
    uqAngle (qnormalize ⟨(0 : ℝ), 0, 0, 1⟩) = 0 ∧
    add_rigid_body_rotation 0 0 0 1 = Vector3.zero :=
  ⟨by norm_num,
    (C7_axis_angle_conversion 0 0 0 1).2 rfl rfl rfl (by norm_num)⟩

end Rapierbind
